import Mathlib

/-!
Verification of the package.xml comparison tool.

The tool retrieves the package manifest from two orgs, optionally strips a
single namespace-marker line from each manifest, runs a trimmed line diff
between the two texts, optionally saves the two files under timestamped
names, and exits 0 when the manifests are identical and 1 otherwise.

Manifest texts are represented by their list of lines.  External npm
libraries (the diff library, the line-number and line-replace helpers) are
not part of this repository; they are modelled from the specification, as
noted on each definition.  Everything else is translated from the source
files (the main script, utils.js, async-line-remove.js, async-fs-utils.js).
-/

/-- Modelled from the spec: the whitespace trim applied to each line by the
trimmed line diff (leading and trailing whitespace removed). -/
def isSpaceChar (c : Char) : Bool :=
  c == ' ' || c == '\t' || c == '\n' || c == '\r' || c == '\x0b' || c == '\x0c'

/-- Modelled from the spec: trim of leading and trailing whitespace on one line. -/
def trimLine (s : String) : String :=
  ⟨((s.data.dropWhile isSpaceChar).reverse.dropWhile isSpaceChar).reverse⟩

/-- Tag of a diff segment: a contiguous run of lines is added, removed, or common. -/
inductive DiffTag where
  | added
  | removed
  | common
deriving DecidableEq

/-- Output unit of the differ: a tagged segment carrying the literal line text. -/
structure DiffSegment where
  tag : DiffTag
  value : String
deriving DecidableEq

/-- Segments surfaced by the report: the main script filters the diff output,
keeping the changed segments and dropping the unchanged ones (spec section 4.6:
only added and removed segments are surfaced). -/
def filteredChanges (segs : List DiffSegment) : List DiffSegment :=
  segs.filter fun s => s.tag ≠ DiffTag.common

/-- Number of changed (added or removed) segments, the cost minimised by a
minimal edit script. -/
def changedCount (segs : List DiffSegment) : Nat :=
  (filteredChanges segs).length

/-- Modelled from the spec: the external diff library entry point used by the
main script, a line-oriented diff comparing lines after trimming leading and
trailing whitespace, producing a minimal insert/delete edit script of tagged
segments.  This is the textbook minimal edit recursion: equal (trimmed) heads
are matched, otherwise the cheaper of delete-first and insert-first is taken. -/
def diffTrimmedLines (xs ys : List String) : List DiffSegment :=
  match xs, ys with
  | [], [] => []
  | [], b :: bs => { tag := DiffTag.added, value := b } :: diffTrimmedLines [] bs
  | a :: as, [] => { tag := DiffTag.removed, value := a } :: diffTrimmedLines as []
  | a :: as, b :: bs =>
    if trimLine a = trimLine b then
      { tag := DiffTag.common, value := a } :: diffTrimmedLines as bs
    else
      if changedCount ({ tag := DiffTag.removed, value := a } :: diffTrimmedLines as (b :: bs)) ≤
          changedCount ({ tag := DiffTag.added, value := b } :: diffTrimmedLines (a :: as) bs) then
        { tag := DiffTag.removed, value := a } :: diffTrimmedLines as (b :: bs)
      else
        { tag := DiffTag.added, value := b } :: diffTrimmedLines (a :: as) bs
termination_by xs.length + ys.length
decreasing_by all_goals simp +arith

/-- Character class of the marker pattern body, translated from the regex
literal in the main script: one of `-`, `_`, `A`..`Z`, `a`..`z`, `0`..`9`. -/
def isMarkerChar (c : Char) : Bool :=
  c == '-' || c == '_' || c.isAlphanum

/-- Opening tag of the marker pattern, from the regex literal in the main script. -/
def openTagChars : List Char := "<namespacePrefix>".data

/-- Closing tag of the marker pattern, from the regex literal in the main script. -/
def closeTagChars : List Char := "</namespacePrefix>".data

/-- Test whether the first list is an initial run of the second. -/
def startsWithChars : List Char → List Char → Bool
  | [], _ => true
  | _ :: _, [] => false
  | p :: ps, c :: cs => p == c && startsWithChars ps cs

/-- Match of the marker regex at the start of the given character list: the
opening tag, one or more body characters, then the closing tag.  Since the
body class excludes the character starting the closing tag, the greedy
regex semantics coincide with taking the maximal body run. -/
def matchMarkerAt (cs : List Char) : Bool :=
  if startsWithChars openTagChars cs then
    let rest := cs.drop openTagChars.length
    !(rest.takeWhile isMarkerChar).isEmpty &&
      startsWithChars closeTagChars (rest.dropWhile isMarkerChar)
  else false

/-- Test whether the marker regex matches somewhere inside the line: an
unanchored regex search tries every starting position. -/
def lineHasMarker (line : String) : Bool :=
  go line.data
where
  go : List Char → Bool
    | [] => false
    | c :: cs => matchMarkerAt (c :: cs) || go cs

/-- Modelled from the spec: the external line-number library returns, for the
given text and regex, the matching lines with their 1-based line numbers.
This definition returns the 1-based numbers of the lines matching the marker
regex, counting from `k`. -/
def markerLineNumbersFrom (k : Nat) : List String → List Nat
  | [] => []
  | line :: rest =>
    if lineHasMarker line then k :: markerLineNumbersFrom (k + 1) rest
    else markerLineNumbersFrom (k + 1) rest

/-- The 1-based line numbers of the lines matching the marker regex. -/
def markerLineNumbers (lines : List String) : List Nat :=
  markerLineNumbersFrom 1 lines

/-- Modelled from the spec: async-line-remove.js drives the external
line-replace library with empty replacement text and no added newline, which
deletes the whole 1-based line `n` from the file, inserting nothing in its
place (spec section 4.5). -/
def lineRemove (lines : List String) (n : Nat) : List String :=
  lines.eraseIdx (n - 1)

/-- Marker-stripping step of the main script: when the line-number search
yields exactly one match the matched line is removed, otherwise the text is
left unchanged. -/
def stripMarker (lines : List String) : List String :=
  match markerLineNumbers lines with
  | [n] => lineRemove lines n
  | _ => lines

/-- Command line options of the main script after parsing.  The string typed
flags keep their parsed values; `parseError` records a parser failure;
`saveDirExists` models the filesystem existence check made on the save
directory; `org1` and `org2` are `none` when the flag is absent. -/
structure Options where
  parseError : Bool
  help : Bool
  org1 : Option String
  org2 : Option String
  packagename : String
  packagexml : Option String
  savePackagexml : String
  saveDir : String
  saveDirExists : Bool
  verbose : Bool
deriving DecidableEq

/-- Valid values of the save-packagexml flag, from the main script. -/
def validSavePolicies : List String := ["diff", "always", "never"]

/-- Argument validation of the main script: parse errors and help requests are
invalid, both org flags are required, the save policy must be one of the
three valid values, and the save directory must exist. -/
def argsValid (options : Options) : Bool :=
  if options.parseError || options.help then false
  else if options.org1.isNone || options.org2.isNone then false
  else if options.savePackagexml != "" && !(validSavePolicies.contains options.savePackagexml) then false
  else if options.saveDir != "" && !options.saveDirExists then false
  else true

/-- Join of path segments, modelling path.join on relative segments. -/
def pathJoin (a b : String) : String := a ++ "/" ++ b

/-- Manifest locator from utils.js: with an explicit manifest the external
tool nests its output under unpackaged, without one the manifest sits at the
top of the extraction directory. -/
def getPackageXMLPath (options : Options) (base : String) : String :=
  if options.packagexml.isSome then pathJoin (pathJoin base "unpackaged") "package.xml"
  else pathJoin base "package.xml"

/-- UTC clock fields as exposed by the JavaScript Date getters; `utcMonth` is
the zero-based month (0 = January, 11 = December) per the getUTCMonth API. -/
structure JSDate where
  utcFullYear : Nat
  utcMonth : Nat
  utcDate : Nat
  utcHours : Nat
  utcMinutes : Nat
  utcSeconds : Nat
deriving DecidableEq

/-- Zero padding helper from utils.js: values below ten get a leading zero. -/
def pad (value : Nat) : String :=
  if value < 10 then "0" ++ toString value else toString value

/-- Timestamp builder from utils.js.  The month field is the raw getUTCMonth
value: the source applies no +1 adjustment to the zero-based month. -/
def getTimestamp (d : JSDate) : String :=
  toString d.utcFullYear ++ "-" ++ pad d.utcMonth ++ "-" ++ pad d.utcDate ++ "T" ++
    pad d.utcHours ++ ":" ++ pad d.utcMinutes ++ ":" ++ pad d.utcSeconds ++ "Z"

/-- Save condition of the main script, with the JavaScript operator
precedence of the source kept: (policy truthy AND policy = always) OR
(policy = diff AND rc = 1). -/
def saveTriggered (options : Options) (rc : Nat) : Bool :=
  (!(options.savePackagexml == "") && (options.savePackagexml == "always")) ||
    ((options.savePackagexml == "diff") && (rc == 1))

/-- Destination files written by the save step: when the save condition
holds, the two manifests are copied into the save directory under
timestamped names; otherwise nothing is written. -/
def savedFiles (options : Options) (rc : Nat) (d : JSDate) : List String :=
  if saveTriggered options rc then
    [pathJoin options.saveDir ("package-1-" ++ getTimestamp d ++ ".xml"),
     pathJoin options.saveDir ("package-2-" ++ getTimestamp d ++ ".xml")]
  else []

/-- Value resolved by the save stage and handed to the final stage of the
promise chain: the bare numeric result code, or the three element array
produced by Promise.all, holding the result code in position 0 followed by
the two copy results (undefined, modelled as units). -/
inductive ExitArg where
  | num (rc : Nat)
  | arr (rc : Nat) (copy1 copy2 : Unit)
deriving DecidableEq

/-- Save stage of the main script: when the save condition holds it returns
the Promise.all array of the result code and the two copies, otherwise the
bare result code. -/
def saveStep (options : Options) (rc : Nat) : ExitArg :=
  if saveTriggered options rc then ExitArg.arr rc () () else ExitArg.num rc

/-- Numeric exit code read out of the value handed to the final stage, as the
final stage itself reads it for logging: position 0 of an array, or the bare
number. -/
def exitCodeLogged : ExitArg → Nat
  | ExitArg.num rc => rc
  | ExitArg.arr rc _ _ => rc

/-- Manifest contents handed to the differ: with an explicit manifest the
texts are compared verbatim, otherwise the marker-stripping step runs on each
manifest before the re-read. -/
def finalManifests (options : Options) (m1 m2 : List String) : List String × List String :=
  if options.packagexml.isSome then (m1, m2)
  else (stripMarker m1, stripMarker m2)

/-- Result code of the diff stage: 1 when the filtered diff output is
non-empty, 0 otherwise. -/
def resultCode (a b : List String) : Nat :=
  if (filteredChanges (diffTrimmedLines a b)).length != 0 then 1 else 0

/-- Abstract failure of an externally delegated pipeline stage: the org
connectivity check, the metadata retrieval, the archive extraction, a file
read or line removal, or a file copy.  Any of these rejects the promise
chain and reaches the top level catch. -/
inductive StageFailure where
  | connection
  | retrieval
  | extraction
  | fileRead
  | lineRemoval
  | fileCopy
deriving DecidableEq

/-- One run of the script: the parsed options, the first failing delegated
stage if any, the two manifest texts as first read, and the clock. -/
structure RunEnv where
  options : Options
  failure : Option StageFailure
  manifest1 : List String
  manifest2 : List String
  date : JSDate
deriving DecidableEq

/-- Exit code of a run: invalid arguments print the usage text and exit 0;
any delegated stage failure reaches the top level catch and exits 1;
otherwise the diff result code flows through the save stage into the final
process exit. -/
def runExitCode (env : RunEnv) : Nat :=
  if !argsValid env.options then 0
  else
    match env.failure with
    | some _ => 1
    | none =>
      let fm := finalManifests env.options env.manifest1 env.manifest2
      exitCodeLogged (saveStep env.options (resultCode fm.1 fm.2))

/-- Sample clock value used in witnesses. -/
def sampleDate : JSDate :=
  { utcFullYear := 2026, utcMonth := 9, utcDate := 11,
    utcHours := 8, utcMinutes := 30, utcSeconds := 45 }

/-- Sample valid options in explicit-manifest mode. -/
def sampleOptionsPkgxml : Options :=
  { parseError := false, help := false, org1 := some "left", org2 := some "right",
    packagename := "becem", packagexml := some "/tmp/p.xml", savePackagexml := "never",
    saveDir := "/tmp", saveDirExists := true, verbose := false }

/-- Sample valid options in package-name mode. -/
def sampleOptionsPkgname : Options :=
  { parseError := false, help := false, org1 := some "left", org2 := some "right",
    packagename := "becem", packagexml := none, savePackagexml := "never",
    saveDir := "/tmp", saveDirExists := true, verbose := false }

/-- Sample valid options with the save policy set to always. -/
def sampleOptionsAlways : Options :=
  { parseError := false, help := false, org1 := some "left", org2 := some "right",
    packagename := "becem", packagexml := some "/tmp/p.xml", savePackagexml := "always",
    saveDir := "/tmp", saveDirExists := true, verbose := false }

/-- Sample invalid options: the required org2 flag is missing. -/
def sampleOptionsBad : Options :=
  { parseError := false, help := false, org1 := some "left", org2 := none,
    packagename := "becem", packagexml := none, savePackagexml := "never",
    saveDir := "/tmp", saveDirExists := true, verbose := false }

/-- Sample run with differing manifests in explicit-manifest mode. -/
def sampleEnvDiff : RunEnv :=
  { options := sampleOptionsPkgxml, failure := none,
    manifest1 := ["<a/>"], manifest2 := ["<b/>"], date := sampleDate }

/-- Sample run with identical manifests in explicit-manifest mode. -/
def sampleEnvSame : RunEnv :=
  { options := sampleOptionsPkgxml, failure := none,
    manifest1 := ["<a/>"], manifest2 := ["  <a/>"], date := sampleDate }

/-- Sample run with an argument error and differing manifests. -/
def sampleEnvBad : RunEnv :=
  { options := sampleOptionsBad, failure := none,
    manifest1 := ["<a/>"], manifest2 := ["<b/>"], date := sampleDate }

theorem filteredChanges_diff_eq_nil_iff (xs ys : List String) :
    filteredChanges (diffTrimmedLines xs ys) = [] ↔ xs.map trimLine = ys.map trimLine := by
  induction xs, ys using diffTrimmedLines.induct with
  | case1 =>
    simp [diffTrimmedLines, filteredChanges]
  | case2 b bs =>
    rw [diffTrimmedLines]
    simp [filteredChanges]
  | case3 a as =>
    rw [diffTrimmedLines]
    simp [filteredChanges]
  | case4 a as b bs h ih =>
    rw [diffTrimmedLines]
    simp only [if_pos h, filteredChanges, List.filter]
    simp [filteredChanges] at ih
    simp [ih, h]
  | case5 a as b bs h hc ih1 ih2 =>
    rw [diffTrimmedLines]
    simp only [if_neg h, if_pos hc]
    simp [filteredChanges, h]
  | case6 a as b bs h hc ih1 ih2 =>
    rw [diffTrimmedLines]
    simp only [if_neg h, if_neg hc]
    simp [filteredChanges, h]

theorem markerLineNumbersFrom_eq_nil_iff (ls : List String) (k : Nat) :
    markerLineNumbersFrom k ls = [] ↔ ∀ l ∈ ls, lineHasMarker l = false := by
  induction ls generalizing k with
  | nil => simp [markerLineNumbersFrom]
  | cons l rest ih =>
    by_cases h : lineHasMarker l
    · simp [markerLineNumbersFrom, h]
    · simp [markerLineNumbersFrom, h, ih]

theorem markerLineNumbersFrom_eq_single (ls : List String) (k n : Nat)
    (h : markerLineNumbersFrom k ls = [n]) :
    ∃ pre line post,
      ls = pre ++ line :: post ∧
      lineHasMarker line = true ∧
      (∀ l ∈ pre, lineHasMarker l = false) ∧
      (∀ l ∈ post, lineHasMarker l = false) ∧
      k + pre.length = n := by
  induction ls generalizing k with
  | nil => simp [markerLineNumbersFrom] at h
  | cons l rest ih =>
    by_cases hl : lineHasMarker l
    · rw [markerLineNumbersFrom, if_pos hl] at h
      obtain ⟨hk, hrest⟩ := List.cons_eq_cons.mp h
      refine ⟨[], l, rest, by simp, hl, by simp, ?_, by simpa using hk⟩
      exact (markerLineNumbersFrom_eq_nil_iff rest (k + 1)).mp hrest
    · rw [markerLineNumbersFrom, if_neg hl] at h
      obtain ⟨pre, line, post, hsplit, hline, hpre, hpost, hlen⟩ := ih (k + 1) h
      refine ⟨l :: pre, line, post, by simp [hsplit], hline, ?_, hpost,
        by simp only [List.length_cons]; omega⟩
      intro x hx
      rcases List.mem_cons.mp hx with hx | hx
      · subst hx; simpa using hl
      · exact hpre x hx

theorem eraseIdx_append_middle (pre post : List String) (x : String) :
    (pre ++ x :: post).eraseIdx pre.length = pre ++ post := by
  induction pre with
  | nil => rfl
  | cons a pre ih => simpa [List.eraseIdx] using ih

theorem stripMarker_decomp (lines : List String) (n : Nat)
    (h : markerLineNumbers lines = [n]) :
    ∃ pre line post,
      lines = pre ++ line :: post ∧
      lineHasMarker line = true ∧
      (∀ l ∈ pre, lineHasMarker l = false) ∧
      (∀ l ∈ post, lineHasMarker l = false) ∧
      pre.length = n - 1 ∧
      stripMarker lines = pre ++ post := by
  obtain ⟨pre, line, post, hsplit, hline, hpre, hpost, hlen⟩ :=
    markerLineNumbersFrom_eq_single lines 1 n h
  refine ⟨pre, line, post, hsplit, hline, hpre, hpost, by omega, ?_⟩
  simp only [stripMarker, h, lineRemove]
  have hn : n - 1 = pre.length := by omega
  rw [hn, hsplit, eraseIdx_append_middle]

theorem stripMarker_noop_of_not_single (lines : List String)
    (h : (markerLineNumbers lines).length ≠ 1) :
    stripMarker lines = lines := by
  rcases hml : markerLineNumbers lines with _ | ⟨a, _ | ⟨b, t⟩⟩
  · simp [stripMarker, hml]
  · exact absurd (by simp [hml]) h
  · simp [stripMarker, hml]

theorem exitCodeLogged_saveStep (options : Options) (rc : Nat) :
    exitCodeLogged (saveStep options rc) = rc := by
  unfold saveStep
  split <;> rfl

theorem resultCode_eq_zero_iff (a b : List String) :
    resultCode a b = 0 ↔ a.map trimLine = b.map trimLine := by
  rw [← filteredChanges_diff_eq_nil_iff]
  unfold resultCode
  constructor
  · intro h
    by_contra hne
    rw [if_pos] at h
    · exact absurd h (by decide)
    · simpa [List.length_eq_zero] using hne
  · intro h
    simp [h]

theorem resultCode_eq_one_iff (a b : List String) :
    resultCode a b = 1 ↔ a.map trimLine ≠ b.map trimLine := by
  constructor
  · intro h hmap
    have h0 := (resultCode_eq_zero_iff a b).mpr hmap
    omega
  · intro hne
    have hnil : ¬ filteredChanges (diffTrimmedLines a b) = [] := by
      rw [filteredChanges_diff_eq_nil_iff]; exact hne
    unfold resultCode
    rw [if_pos]
    simpa [List.length_eq_zero] using hnil

theorem runExitCode_of_invalid (env : RunEnv) (h : argsValid env.options = false) :
    runExitCode env = 0 := by
  simp [runExitCode, h]

theorem runExitCode_of_failure (env : RunEnv) (e : StageFailure)
    (h : argsValid env.options = true) (hf : env.failure = some e) :
    runExitCode env = 1 := by
  simp [runExitCode, h, hf]

theorem runExitCode_of_success (env : RunEnv)
    (h : argsValid env.options = true) (hf : env.failure = none) :
    runExitCode env =
      resultCode (finalManifests env.options env.manifest1 env.manifest2).1
        (finalManifests env.options env.manifest1 env.manifest2).2 := by
  simp [runExitCode, h, hf, exitCodeLogged_saveStep]

theorem pad_length_two (v : Nat) (h : v ≤ 99) : (pad v).length = 2 := by
  interval_cases v <;> decide

theorem pad_ne_pad_succ (v : Nat) (h : v ≤ 11) : pad v ≠ pad (v + 1) := by
  interval_cases v <;> decide

/-- C1: for every pair of manifest texts handed to the differ that differ in
at least one line after trimming leading and trailing whitespace, the
filtered diff output (the surfaced added and removed segments) is non-empty
and the run exits with status 1. -/
theorem diff_nonempty_changes_exit_one (env : RunEnv) (a b : List String)
    (hargs : argsValid env.options = true)
    (hfail : env.failure = none)
    (hman : finalManifests env.options env.manifest1 env.manifest2 = (a, b))
    (hne : a.map trimLine ≠ b.map trimLine) :
    filteredChanges (diffTrimmedLines a b) ≠ [] ∧ runExitCode env = 1 := by
  constructor
  · rw [ne_eq, filteredChanges_diff_eq_nil_iff]
    exact hne
  · rw [runExitCode_of_success env hargs hfail, hman]
    exact (resultCode_eq_one_iff a b).mpr hne

/-- Witness for C1 at a concrete run with differing one-line manifests. -/
theorem diff_nonempty_changes_exit_one_witness :
    filteredChanges (diffTrimmedLines ["<a/>"] ["<b/>"]) ≠ [] ∧
    runExitCode sampleEnvDiff = 1 :=
  diff_nonempty_changes_exit_one sampleEnvDiff ["<a/>"] ["<b/>"]
    (by decide) rfl rfl (by decide)

/-- C3: for every pair of manifest texts handed to the differ with zero
line-level differences after trimming each line, the filtered diff output is
empty and the run exits with status 0. -/
theorem diff_empty_changes_exit_zero (env : RunEnv) (a b : List String)
    (hargs : argsValid env.options = true)
    (hfail : env.failure = none)
    (hman : finalManifests env.options env.manifest1 env.manifest2 = (a, b))
    (heq : a.map trimLine = b.map trimLine) :
    filteredChanges (diffTrimmedLines a b) = [] ∧ runExitCode env = 0 := by
  constructor
  · rw [filteredChanges_diff_eq_nil_iff]
    exact heq
  · rw [runExitCode_of_success env hargs hfail, hman]
    exact (resultCode_eq_zero_iff a b).mpr heq

/-- Witness for C3 at a concrete run whose manifests agree up to indentation. -/
theorem diff_empty_changes_exit_zero_witness :
    filteredChanges (diffTrimmedLines ["<a/>"] ["  <a/>"]) = [] ∧
    runExitCode sampleEnvSame = 0 :=
  diff_empty_changes_exit_zero sampleEnvSame ["<a/>"] ["  <a/>"]
    (by decide) rfl rfl (by decide)

/-- C2 counterexample: a run with an argument error (the required org2 flag
is missing) and differing manifests exits with status 0, not 1, because the
main script prints the usage text and calls process.exit(0) whenever argument
validation fails. -/
theorem exit_code_counterexample :
    argsValid sampleOptionsBad = false ∧
    ["<a/>"].map trimLine ≠ ["<b/>"].map trimLine ∧
    runExitCode sampleEnvBad = 0 :=
  ⟨by decide, by decide, by decide⟩

/-- C2 (amended): the exit status is 0 exactly when argument validation fails
(usage is printed and the process exits 0) or when every delegated stage
succeeds and the two final manifests are identical after line trimming; it is
1 exactly when the arguments are valid and either a delegated stage fails or
the final manifests differ. -/
theorem exit_code_characterisation (env : RunEnv) :
    (runExitCode env = 0 ↔
      (argsValid env.options = false ∨
        (env.failure = none ∧
          (finalManifests env.options env.manifest1 env.manifest2).1.map trimLine =
            (finalManifests env.options env.manifest1 env.manifest2).2.map trimLine))) ∧
    (runExitCode env = 1 ↔
      (argsValid env.options = true ∧
        (env.failure ≠ none ∨
          (finalManifests env.options env.manifest1 env.manifest2).1.map trimLine ≠
            (finalManifests env.options env.manifest1 env.manifest2).2.map trimLine))) := by
  by_cases hargs : argsValid env.options
  · cases hfail : env.failure with
    | some e =>
      have h1 := runExitCode_of_failure env e hargs hfail
      constructor
      · simp [h1, hargs, hfail]
      · simp [h1, hargs, hfail]
    | none =>
      have h1 := runExitCode_of_success env hargs hfail
      by_cases hm :
          (finalManifests env.options env.manifest1 env.manifest2).1.map trimLine =
            (finalManifests env.options env.manifest1 env.manifest2).2.map trimLine
      · have h0 := (resultCode_eq_zero_iff _ _).mpr hm
        constructor
        · simp [h1, h0, hargs, hfail, hm]
        · simp [h1, h0, hargs, hfail, hm]
      · have hone := (resultCode_eq_one_iff _ _).mpr hm
        constructor
        · simp [h1, hone, hargs, hfail, hm]
        · simp [h1, hone, hargs, hfail, hm]
  · have hfalse : argsValid env.options = false := by
      simpa using hargs
    have h0 := runExitCode_of_invalid env hfalse
    constructor
    · simp [h0, hfalse]
    · simp [h0, hfalse]

/-- C4: when exactly one line of the manifest matches the marker pattern, the
stripping step removes exactly that line: the output has exactly one fewer
line, nothing is inserted in its place, and every other line keeps its
content and relative order. -/
theorem strip_single_match (lines : List String) (n : Nat)
    (h : markerLineNumbers lines = [n]) :
    ∃ pre line post,
      lines = pre ++ line :: post ∧
      lineHasMarker line = true ∧
      pre.length = n - 1 ∧
      stripMarker lines = pre ++ post ∧
      (stripMarker lines).length + 1 = lines.length := by
  obtain ⟨pre, line, post, hsplit, hline, hpre, hpost, hlen, hstrip⟩ :=
    stripMarker_decomp lines n h
  refine ⟨pre, line, post, hsplit, hline, hlen, hstrip, ?_⟩
  rw [hstrip, hsplit]
  simp +arith

/-- Witness for C4 at a three line manifest whose second line is the marker. -/
theorem strip_single_match_witness :
    ∃ pre line post,
      ["<a/>", "  <namespacePrefix>my_ns-1</namespacePrefix>", "<b/>"] = pre ++ line :: post ∧
      lineHasMarker line = true ∧
      pre.length = 1 ∧
      stripMarker ["<a/>", "  <namespacePrefix>my_ns-1</namespacePrefix>", "<b/>"] = pre ++ post ∧
      (stripMarker ["<a/>", "  <namespacePrefix>my_ns-1</namespacePrefix>", "<b/>"]).length + 1 =
        (["<a/>", "  <namespacePrefix>my_ns-1</namespacePrefix>", "<b/>"] : List String).length :=
  strip_single_match ["<a/>", "  <namespacePrefix>my_ns-1</namespacePrefix>", "<b/>"] 2
    (by decide)

/-- C5: when zero lines, or two or more lines, of the manifest match the
marker pattern, the stripping step leaves the text unchanged. -/
theorem strip_not_single_match (lines : List String)
    (h : (markerLineNumbers lines).length ≠ 1) :
    stripMarker lines = lines :=
  stripMarker_noop_of_not_single lines h

/-- Witness for C5 at a manifest with two marker lines. -/
theorem strip_not_single_match_witness :
    stripMarker ["<namespacePrefix>one</namespacePrefix>",
      "<namespacePrefix>two</namespacePrefix>"] =
      ["<namespacePrefix>one</namespacePrefix>", "<namespacePrefix>two</namespacePrefix>"] :=
  strip_not_single_match
    ["<namespacePrefix>one</namespacePrefix>", "<namespacePrefix>two</namespacePrefix>"]
    (by decide)

/-- C6: the marker-stripping step is idempotent: stripping the result of a
strip changes nothing, for every manifest text. -/
theorem strip_idempotent (lines : List String) :
    stripMarker (stripMarker lines) = stripMarker lines := by
  rcases hml : markerLineNumbers lines with _ | ⟨n, _ | ⟨m, t⟩⟩
  · simp [stripMarker, hml]
  · obtain ⟨pre, line, post, hsplit, hline, hpre, hpost, hlen, hstrip⟩ :=
      stripMarker_decomp lines n hml
    have hclean : markerLineNumbers (pre ++ post) = [] := by
      rw [markerLineNumbers, markerLineNumbersFrom_eq_nil_iff]
      intro l hl
      rcases List.mem_append.mp hl with h | h
      · exact hpre l h
      · exact hpost l h
    rw [hstrip]
    simp [stripMarker, hclean]
  · simp [stripMarker, hml]

/-- C7: the manifest locator returns base/package.xml when retrieval was
driven by a package name (no explicit manifest supplied) and
base/unpackaged/package.xml when an explicit manifest file drove retrieval. -/
theorem package_xml_path_by_mode (options : Options) (base : String) :
    (options.packagexml = none →
      getPackageXMLPath options base = base ++ "/package.xml") ∧
    (options.packagexml.isSome = true →
      getPackageXMLPath options base = base ++ "/unpackaged/package.xml") := by
  constructor
  · intro h
    simp only [getPackageXMLPath, pathJoin, h, Option.isSome_none, Bool.false_eq_true,
      if_false]
    rw [String.append_assoc]
    rfl
  · intro h
    simp only [getPackageXMLPath, pathJoin, h, if_true]
    rw [String.append_assoc, String.append_assoc, String.append_assoc]
    rfl

/-- Witness for C7 at a concrete base directory in both retrieval modes. -/
theorem package_xml_path_by_mode_witness :
    getPackageXMLPath sampleOptionsPkgname "/base" = "/base" ++ "/package.xml" ∧
    getPackageXMLPath sampleOptionsPkgxml "/base" = "/base" ++ "/unpackaged/package.xml" :=
  ⟨(package_xml_path_by_mode sampleOptionsPkgname "/base").1 rfl,
   (package_xml_path_by_mode sampleOptionsPkgxml "/base").2 rfl⟩

/-- C8: the save step writes zero files under policy never regardless of the
diff outcome, exactly two files under policy always regardless of the
outcome, and under policy diff exactly two files when the result code is 1
and zero files otherwise. -/
theorem save_policy_matrix (options : Options) (rc : Nat) (d : JSDate) :
    (options.savePackagexml = "never" → savedFiles options rc d = []) ∧
    (options.savePackagexml = "always" → (savedFiles options rc d).length = 2) ∧
    (options.savePackagexml = "diff" →
      (savedFiles options rc d).length = if rc = 1 then 2 else 0) := by
  refine ⟨?_, ?_, ?_⟩ <;> intro h
  · have ht : saveTriggered options rc = false := by
      simp [saveTriggered, h]
    simp [savedFiles, ht]
  · have ht : saveTriggered options rc = true := by
      simp [saveTriggered, h]
    simp [savedFiles, ht]
  · by_cases hrc : rc = 1
    · subst hrc
      have ht : saveTriggered options 1 = true := by
        simp [saveTriggered, h]
      simp [savedFiles, ht]
    · have ht : saveTriggered options rc = false := by
        simp [saveTriggered, h, hrc]
      simp [savedFiles, ht, hrc]

/-- Witness for C8 at concrete options for each of the three policies. -/
theorem save_policy_matrix_witness :
    savedFiles sampleOptionsPkgxml 1 sampleDate = [] ∧
    (savedFiles sampleOptionsAlways 0 sampleDate).length = 2 ∧
    (savedFiles { sampleOptionsAlways with savePackagexml := "diff" } 0 sampleDate).length =
      if (0 : Nat) = 1 then 2 else 0 :=
  ⟨(save_policy_matrix sampleOptionsPkgxml 1 sampleDate).1 rfl,
   (save_policy_matrix sampleOptionsAlways 0 sampleDate).2.1 rfl,
   (save_policy_matrix { sampleOptionsAlways with savePackagexml := "diff" } 0 sampleDate).2.2 rfl⟩

/-- C9: when saving occurs the destinations are package-1-(timestamp).xml and
package-2-(timestamp).xml in the save directory; the timestamp has the shape
YYYY-MM-DDTHH:MM:SSZ with two-digit zero-padded fields, and its month field
is the zero-based month, one less than the calendar month, with no +1
adjustment. -/
theorem saved_filenames_and_timestamp (options : Options) (rc : Nat) (d : JSDate)
    (hsave : saveTriggered options rc = true)
    (hy : (toString d.utcFullYear).length = 4)
    (hmo : d.utcMonth ≤ 11) (hda : d.utcDate ≤ 31) (hho : d.utcHours ≤ 23)
    (hmi : d.utcMinutes ≤ 59) (hse : d.utcSeconds ≤ 59)
    (cal : Nat) (hcal : cal = d.utcMonth + 1) :
    savedFiles options rc d =
      [options.saveDir ++ "/" ++ ("package-1-" ++ getTimestamp d ++ ".xml"),
       options.saveDir ++ "/" ++ ("package-2-" ++ getTimestamp d ++ ".xml")] ∧
    getTimestamp d =
      toString d.utcFullYear ++ "-" ++ pad (cal - 1) ++ "-" ++ pad d.utcDate ++ "T" ++
        pad d.utcHours ++ ":" ++ pad d.utcMinutes ++ ":" ++ pad d.utcSeconds ++ "Z" ∧
    (pad (cal - 1)).length = 2 ∧ (pad d.utcDate).length = 2 ∧ (pad d.utcHours).length = 2 ∧
    (pad d.utcMinutes).length = 2 ∧ (pad d.utcSeconds).length = 2 ∧
    pad (cal - 1) ≠ pad cal ∧
    (getTimestamp d).length = 20 := by
  subst hcal
  rw [Nat.add_sub_cancel]
  refine ⟨?_, rfl, ?_, ?_, ?_, ?_, ?_, ?_, ?_⟩
  · simp [savedFiles, hsave, pathJoin]
  · exact pad_length_two d.utcMonth (by omega)
  · exact pad_length_two d.utcDate (by omega)
  · exact pad_length_two d.utcHours (by omega)
  · exact pad_length_two d.utcMinutes (by omega)
  · exact pad_length_two d.utcSeconds (by omega)
  · exact pad_ne_pad_succ d.utcMonth hmo
  · simp only [getTimestamp, String.length_append, hy,
      pad_length_two d.utcMonth (by omega), pad_length_two d.utcDate (by omega),
      pad_length_two d.utcHours (by omega), pad_length_two d.utcMinutes (by omega),
      pad_length_two d.utcSeconds (by omega)]
    rfl

/-- Witness for C9 at a concrete always-save run on 2026-10-11 08:30:45 UTC,
whose calendar month 10 is rendered as 09. -/
theorem saved_filenames_and_timestamp_witness :
    savedFiles sampleOptionsAlways 0 sampleDate =
      ["/tmp" ++ "/" ++ ("package-1-" ++ getTimestamp sampleDate ++ ".xml"),
       "/tmp" ++ "/" ++ ("package-2-" ++ getTimestamp sampleDate ++ ".xml")] ∧
    getTimestamp sampleDate =
      toString (2026 : Nat) ++ "-" ++ pad (10 - 1) ++ "-" ++ pad 11 ++ "T" ++
        pad 8 ++ ":" ++ pad 30 ++ ":" ++ pad 45 ++ "Z" ∧
    (pad (10 - 1)).length = 2 ∧ (pad 11).length = 2 ∧ (pad 8).length = 2 ∧
    (pad 30).length = 2 ∧ (pad 45).length = 2 ∧
    pad (10 - 1) ≠ pad 10 ∧
    (getTimestamp sampleDate).length = 20 :=
  saved_filenames_and_timestamp sampleOptionsAlways 0 sampleDate
    (by decide) (by decide) (by decide) (by decide) (by decide) (by decide) (by decide)
    10 rfl

/-- C10: whenever the save condition holds (policy always, or policy diff
with a differing result), the value resolved into the final process-exit
stage is the three element Promise.all array holding the numeric result code
in position 0 and the two undefined copy results, not the bare code; the bare
numeric code is passed exactly when no save occurs. -/
theorem exit_value_array_iff_saving (options : Options) (rc : Nat) :
    (saveStep options rc = ExitArg.arr rc () () ↔ saveTriggered options rc = true) ∧
    (saveStep options rc = ExitArg.num rc ↔ saveTriggered options rc = false) := by
  unfold saveStep
  by_cases h : saveTriggered options rc <;> simp [h]
